import Mathlib

/-!
Shallow embedding of mythwright/arc-monitor (src/cmd/arcmon/main.go).

The program is a polling loop: each tick fetches a checksum (GET, body split
on the space character, first field) and a last-modified timestamp (HEAD,
RFC 1123 header), compares the checksum against an in-memory record, and on
a difference sends a webhook notification and adopts the fetched values.
On shutdown the record is encoded back into the state file.

Modelling choices:
- Go strings are lists of characters (`GoString`).
- `time.Time` values are abstract instants (`GoTime := Int`); the claims
  never inspect a timestamp's structure, only propagate and compare it.
- Each HTTP exchange is modelled by its observable response (status code,
  body, relevant header); the external library call `time.Parse` on the
  Last-Modified header is modelled by its outcome (`Option GoTime`).
- One iteration of the ticker case of `Tick` is the function `tickStep`,
  taking the results of the two fetches and of the webhook POST as inputs
  and returning the new record together with the list of webhook
  notifications issued during the tick.
-/

deriving instance DecidableEq for Except

namespace ArcMon

/-- Go strings, modelled as lists of characters. -/
abbrev GoString := List Char

/-- Go error values: the message built by fmt.Errorf. -/
abbrev GoError := GoString

/-- An abstract instant, modelling time.Time. -/
abbrev GoTime := Int

/-- ArcDPSVersion (main.go lines 29-33): the persisted record of the last
observed checksum and last-modified timestamp. The embedded mutex only
guards concurrent access and carries no data. -/
structure ArcDPSVersion where
  timestamp : GoTime
  checkSum : GoString
deriving DecidableEq, Repr

/-- Go strings.Split(body, " ") as called in GetChecksum (main.go line 149):
split around each occurrence of the single space character. Empty fields
are kept, and the result is never the empty list. -/
def splitOnSpace : GoString → List GoString
  | [] => [[]]
  | c :: rest =>
    let ts := splitOnSpace rest
    if c = ' ' then [] :: ts
    else (c :: ts.headD []) :: ts.tail

/-- GetChecksum (main.go lines 126-154), as a function of the checksum
endpoint's HTTP response. Request-construction and transport failures are
modelled upstream, as an error input to `tickStep`. -/
def GetChecksum (statusCode : Nat) (body : GoString) : Except GoError GoString :=
  if statusCode > 299 then
    .error ("bad response from delta: (".toList ++ body ++ ")".toList)
  else
    let checkSumSplit := splitOnSpace body
    if checkSumSplit.length < 2 then
      .error "incorrect size of checksum split".toList
    else
      .ok (checkSumSplit.headD [])

/-- GetVersion (main.go lines 156-181), as a function of the artifact
endpoint's HEAD response. The call to time.Parse on the Last-Modified
header is an external library call, modelled by its outcome: `parsed` is
`some t` when the header parses as RFC 1123 to the instant `t` and `none`
when the header is missing or unparsable. -/
def GetVersion (statusCode : Nat) (body : GoString) (parsed : Option GoTime) :
    Except GoError GoTime :=
  if statusCode > 299 then
    .error ("bad response from delta: (".toList ++ body ++ ")".toList)
  else
    match parsed with
    | none => .error "unable to parse time".toList
    | some t => .ok t

/-- SendWebHook (main.go lines 183-206), as a function of the webhook
endpoint's HTTP response status and body. -/
def SendWebHook (statusCode : Nat) (body : GoString) : Except GoError Unit :=
  if statusCode > 299 then
    .error ("bad response from Discord: ".toList ++ (toString statusCode).toList
      ++ " (".toList ++ body ++ ")".toList)
  else
    .ok ()

/-- One webhook notification issued by a tick: the checksum and version
value interpolated into the payload handed to SendWebHook. -/
structure Notification where
  checksum : GoString
  version : GoTime
deriving DecidableEq, Repr

/-- One iteration of the ticker case of Tick (main.go lines 93-120).
`checkRes` and `verRes` are the results of this tick's GetChecksum and
GetVersion calls; `webhookRes` is the result of the SendWebHook POST when
one is made — the source only logs it, so the returned record does not
depend on it. Returns the record after the tick and the notifications
issued during the tick. -/
def tickStep (st : ArcDPSVersion) (checkRes : Except GoError GoString)
    (verRes : Except GoError GoTime) (webhookRes : Except GoError Unit) :
    ArcDPSVersion × List Notification :=
  match checkRes with
  | .error _ => (st, [])
  | .ok check =>
    match verRes with
    | .error _ => (st, [])
    | .ok version =>
      if st.checkSum = [] then
        ({ timestamp := version, checkSum := check }, [])
      else if st.checkSum ≠ check then
        ({ timestamp := version, checkSum := check },
         [{ checksum := check, version := version }])
      else (st, [])

/-- The external inputs consumed by one tick of the loop. -/
structure TickInput where
  checkRes : Except GoError GoString
  verRes : Except GoError GoTime
  webhookRes : Except GoError Unit

/-- The record after running the loop body over a sequence of ticks. -/
def runTicks (st : ArcDPSVersion) : List TickInput → ArcDPSVersion
  | [] => st
  | i :: is => runTicks (tickStep st i.checkRes i.verRes i.webhookRes).1 is

/-- The shutdown save (main.go lines 62-66): f.Seek(0, 0) rewinds the
descriptor and the encoder writes the encoded record at offset 0; the file
is never truncated, so with POSIX write semantics bytes of the prior
content beyond the encoding's length survive. -/
def save (prior encoded : GoString) : GoString :=
  encoded ++ prior.drop encoded.length

/-- Split around every whitespace character, keeping empty fields
(helper for the spec-reading of tokenisation). -/
def splitWhitespace : GoString → List GoString
  | [] => [[]]
  | c :: rest =>
    let ts := splitWhitespace rest
    if c.isWhitespace then [] :: ts
    else (c :: ts.headD []) :: ts.tail

/-- Modelled from the spec: the whitespace-delimited tokens of a body, the
reading of the spec's sentence on GetChecksum ("the response body is
whitespace-delimited text whose first token is the checksum") — maximal
runs of non-whitespace characters, as Go's strings.Fields computes. -/
def whitespaceTokens (s : GoString) : List GoString :=
  (splitWhitespace s).filter (· ≠ [])

/-! Helper lemmas about the space-character split used by GetChecksum. -/

lemma splitOnSpace_ne_nil (s : GoString) : splitOnSpace s ≠ [] := by
  cases s with
  | nil => simp [splitOnSpace]
  | cons c rest =>
    simp only [splitOnSpace]
    split <;> simp

lemma two_le_length_splitOnSpace (s : GoString) :
    2 ≤ (splitOnSpace s).length ↔ ' ' ∈ s := by
  induction s with
  | nil => simp [splitOnSpace]
  | cons c rest ih =>
    obtain ⟨t, ts, hts⟩ := List.exists_cons_of_ne_nil (splitOnSpace_ne_nil rest)
    by_cases hc : c = ' '
    · subst hc
      have hsplit : splitOnSpace (' ' :: rest) = [] :: splitOnSpace rest := by
        simp [splitOnSpace]
      rw [hsplit, hts]
      simp only [List.length_cons, List.mem_cons]
      constructor
      · intro _; exact .inl trivial
      · intro _; omega
    · simp only [splitOnSpace, if_neg hc, hts, List.headD_cons, List.tail_cons,
        List.length_cons, List.mem_cons]
      rw [hts, List.length_cons] at ih
      constructor
      · intro h; exact .inr (ih.mp h)
      · rintro (h | h)
        · exact absurd h.symm hc
        · exact ih.mpr h

lemma headD_splitOnSpace (s : GoString) :
    (splitOnSpace s).headD [] = s.takeWhile (· != ' ') := by
  induction s with
  | nil => simp [splitOnSpace]
  | cons c rest ih =>
    by_cases hc : c = ' '
    · subst hc
      simp [splitOnSpace, List.takeWhile_cons]
    · obtain ⟨t, ts, hts⟩ := List.exists_cons_of_ne_nil (splitOnSpace_ne_nil rest)
      rw [hts, List.headD_cons] at ih
      simp only [splitOnSpace, if_neg hc, hts, List.headD_cons, List.tail_cons,
        List.takeWhile_cons]
      have hb : (c != ' ') = true := by simp [hc]
      rw [hb]
      simp only [if_pos]
      exact congrArg (c :: ·) ih

/-- Shared case analysis on the record a tick leaves behind: either the
record is untouched, or both fields are replaced at once by the checksum
and version of this tick's two successful fetches. -/
lemma tickStep_state_cases (st : ArcDPSVersion) (checkRes : Except GoError GoString)
    (verRes : Except GoError GoTime) (webhookRes : Except GoError Unit) :
    (tickStep st checkRes verRes webhookRes).1 = st ∨
    ∃ c v, checkRes = .ok c ∧ verRes = .ok v ∧
      (tickStep st checkRes verRes webhookRes).1 = { timestamp := v, checkSum := c } := by
  cases checkRes with
  | error e => exact .inl rfl
  | ok c =>
    cases verRes with
    | error e => exact .inl rfl
    | ok v =>
      by_cases h0 : st.checkSum = []
      · exact .inr ⟨c, v, rfl, rfl, by simp [tickStep, h0]⟩
      · by_cases h1 : st.checkSum = c
        · left
          have hnot : ¬ st.checkSum ≠ c := fun h => h h1
          simp [tickStep, h0, hnot]
        · exact .inr ⟨c, v, rfl, rfl, by simp [tickStep, h0, h1]⟩

/-- A tick whose successful checksum fetch is non-empty never empties a
non-empty record checksum. -/
lemma tickStep_checkSum_ne_nil (st : ArcDPSVersion) (checkRes : Except GoError GoString)
    (verRes : Except GoError GoTime) (webhookRes : Except GoError Unit)
    (h0 : st.checkSum ≠ []) (hok : ∀ c, checkRes = .ok c → c ≠ []) :
    (tickStep st checkRes verRes webhookRes).1.checkSum ≠ [] := by
  rcases tickStep_state_cases st checkRes verRes webhookRes with h | ⟨c, v, hc, _, h⟩
  · rw [h]; exact h0
  · rw [h]; exact hok c hc

/-- C1: when both fetches succeed, the record's checksum is non-empty and the
fetched checksum differs from it, the tick issues exactly one notification
carrying the new checksum and adopts the fetched checksum and timestamp as
the new record; the result is the same for every outcome of the webhook
POST, so a failed notification does not block the update. -/
theorem tick_changed_notifies_once_and_updates (st : ArcDPSVersion) (c : GoString)
    (v : GoTime) (webhookRes : Except GoError Unit)
    (hne : st.checkSum ≠ []) (hdiff : c ≠ st.checkSum) :
    tickStep st (.ok c) (.ok v) webhookRes =
      ({ timestamp := v, checkSum := c }, [{ checksum := c, version := v }]) := by
  have h2 : st.checkSum ≠ c := fun h => hdiff h.symm
  simp [tickStep, hne, h2]

/-- C1 witness: record "abc123", fetch "def456" with timestamp 7, webhook
POST failing — one notification carrying "def456", record updated anyway. -/
theorem tick_changed_witness :
    tickStep ⟨0, "abc123".toList⟩ (.ok "def456".toList) (.ok 7)
        (.error "boom".toList) =
      (⟨7, "def456".toList⟩, [⟨"def456".toList, 7⟩]) :=
  tick_changed_notifies_once_and_updates _ _ _ _ (by decide) (by decide)

/-- C2: a tick in which the checksum fetch or the version fetch returns an
error leaves the record exactly as it was and issues no notification. -/
theorem tick_fetch_error_skips (st : ArcDPSVersion) (checkRes : Except GoError GoString)
    (verRes : Except GoError GoTime) (webhookRes : Except GoError Unit)
    (h : (∃ e, checkRes = .error e) ∨ (∃ e, verRes = .error e)) :
    tickStep st checkRes verRes webhookRes = (st, []) := by
  rcases h with ⟨e, rfl⟩ | ⟨e, rfl⟩
  · rfl
  · cases checkRes <;> rfl

/-- C2 witness: a checksum fetch answered with HTTP status 500 is an error,
and the tick built on it leaves the record untouched with no notification. -/
theorem tick_fetch_error_witness :
    tickStep ⟨3, "abc123".toList⟩ (GetChecksum 500 "oops".toList) (.ok 9) (.ok ()) =
      (⟨3, "abc123".toList⟩, []) :=
  tick_fetch_error_skips _ _ _ _
    (.inl ⟨"bad response from delta: (oops)".toList, by decide⟩)

/-- C3: when the record's checksum is empty and both fetches succeed, the
tick adopts the fetched checksum and timestamp as the baseline and issues
no notification. -/
theorem tick_first_fetch_baseline (st : ArcDPSVersion) (c : GoString) (v : GoTime)
    (webhookRes : Except GoError Unit) (hempty : st.checkSum = []) :
    tickStep st (.ok c) (.ok v) webhookRes =
      ({ timestamp := v, checkSum := c }, []) := by
  simp [tickStep, hempty]

/-- C3 witness: empty record, successful fetch of "abc123" at timestamp 5 —
baseline adopted, zero notifications. -/
theorem tick_first_fetch_witness :
    tickStep ⟨0, []⟩ (.ok "abc123".toList) (.ok 5) (.ok ()) =
      (⟨5, "abc123".toList⟩, []) :=
  tick_first_fetch_baseline _ _ _ _ (by decide)

/-- C7: when both fetches succeed and the fetched checksum equals the
record's non-empty checksum, the tick returns the record itself (both
fields unchanged) and no notification; moreover two consecutive ticks fed
the same successful fetched checksum issue at most one notification in
total, whatever the starting record. -/
theorem tick_unchanged_noop_and_idempotent (st : ArcDPSVersion) (c : GoString)
    (v : GoTime) (webhookRes : Except GoError Unit)
    (hne : st.checkSum ≠ []) (heq : c = st.checkSum) :
    tickStep st (.ok c) (.ok v) webhookRes = (st, []) ∧
    ∀ (s : ArcDPSVersion) (d : GoString) (v₁ v₂ : GoTime)
      (w₁ w₂ : Except GoError Unit),
      (tickStep s (.ok d) (.ok v₁) w₁).2.length +
        (tickStep (tickStep s (.ok d) (.ok v₁) w₁).1 (.ok d) (.ok v₂) w₂).2.length
        ≤ 1 := by
  constructor
  · subst heq
    have hnot : ¬ st.checkSum ≠ st.checkSum := fun h => h rfl
    simp [tickStep, hne, hnot]
  · intro s d v₁ v₂ w₁ w₂
    by_cases h0 : s.checkSum = []
    · by_cases hd : d = []
      · simp [tickStep, h0, hd]
      · simp [tickStep, h0, hd]
    · by_cases h1 : s.checkSum = d
      · have hnot : ¬ s.checkSum ≠ d := fun h => h h1
        simp [tickStep, h0, hnot]
      · by_cases hd : d = []
        · simp [tickStep, h0, h1, hd]
        · simp [tickStep, h0, h1, hd]

/-- C7 witness: record "abc123" and fetched "abc123" — no action; starting
from the same record, two ticks fed "def" issue at most one notification. -/
theorem tick_unchanged_witness :
    tickStep ⟨3, "abc123".toList⟩ (.ok "abc123".toList) (.ok 9) (.ok ()) =
      (⟨3, "abc123".toList⟩, []) ∧
    (tickStep ⟨3, "abc123".toList⟩ (.ok "def".toList) (.ok 1) (.ok ())).2.length +
      (tickStep (tickStep ⟨3, "abc123".toList⟩ (.ok "def".toList) (.ok 1) (.ok ())).1
        (.ok "def".toList) (.ok 2) (.ok ())).2.length ≤ 1 := by
  have h := tick_unchanged_noop_and_idempotent ⟨3, "abc123".toList⟩
    "abc123".toList 9 (.ok ()) (by decide) (by decide)
  exact ⟨h.1, h.2 _ _ _ _ _ _⟩

/-- C9: every tick either leaves the record untouched or replaces its two
fields simultaneously, with the checksum and the timestamp returned by the
same tick's successful fetches. -/
theorem tick_mutates_fields_together (st : ArcDPSVersion)
    (checkRes : Except GoError GoString) (verRes : Except GoError GoTime)
    (webhookRes : Except GoError Unit) :
    (tickStep st checkRes verRes webhookRes).1 = st ∨
    ∃ c v, checkRes = .ok c ∧ verRes = .ok v ∧
      (tickStep st checkRes verRes webhookRes).1 = { timestamp := v, checkSum := c } :=
  tickStep_state_cases st checkRes verRes webhookRes

/-- C4: the shutdown save rewinds to offset 0 and writes the encoded record
without truncating, so when the prior file content is longer than the new
encoding the stale tail survives: saving the 14-character encoding over a
24-character prior content leaves the file different from the encoding,
with ten stale characters appended after it. -/
theorem save_no_truncate_leaves_stale_tail :
    save "check_sum: abc123def456\n".toList "check_sum: aa\n".toList ≠
      "check_sum: aa\n".toList ∧
    save "check_sum: abc123def456\n".toList "check_sum: aa\n".toList =
      "check_sum: aa\n".toList ++ "123def456\n".toList := by decide

/-- C5 counterexample: a tick whose checksum fetch succeeds on the body
" d3d9.dll" (empty first space-delimited field) clears a non-empty record
checksum back to the empty string, so the checksum is not "never cleared". -/
theorem tick_can_clear_nonempty_checkSum :
    ("abc123".toList : GoString) ≠ [] ∧
    GetChecksum 200 " d3d9.dll".toList = .ok [] ∧
    (tickStep ⟨0, "abc123".toList⟩ (GetChecksum 200 " d3d9.dll".toList)
      (.ok 5) (.ok ())).1.checkSum = ([] : GoString) := by decide

/-- C5 amended: over any sequence of ticks in which every successful
checksum fetch returns a non-empty checksum, a record whose checksum is
non-empty keeps a non-empty checksum — it is only replaced, never cleared;
clearing requires a fetch whose first space-delimited field is empty. -/
theorem runTicks_checkSum_stays_nonempty (st : ArcDPSVersion)
    (inputs : List TickInput) (h0 : st.checkSum ≠ [])
    (hok : ∀ i ∈ inputs, ∀ c, i.checkRes = .ok c → c ≠ []) :
    (runTicks st inputs).checkSum ≠ [] := by
  induction inputs generalizing st with
  | nil => exact h0
  | cons i is ih =>
    simp only [runTicks]
    refine ih _ (tickStep_checkSum_ne_nil _ _ _ _ h0 (hok i (List.mem_cons_self i is))) ?_
    intro j hj
    exact hok j (List.mem_cons_of_mem _ hj)

/-- C5 amended witness: starting from checksum "abc123", one tick fetching
the non-empty checksum "def456" leaves the record checksum non-empty. -/
theorem runTicks_checkSum_witness :
    (runTicks ⟨0, "abc123".toList⟩
      [⟨.ok "def456".toList, .ok 7, .ok ()⟩]).checkSum ≠ [] :=
  runTicks_checkSum_stays_nonempty _ _ (by decide)
    (by
      intro i hi c hc
      rw [List.mem_singleton] at hi
      subst hi
      injection hc with h
      subst h
      decide)

/-- C6 counterexample: the body separated by a tab has two
whitespace-delimited tokens, the first being "abc", yet GetChecksum rejects
it — the code splits on the space character only, not on whitespace. -/
theorem getChecksum_rejects_tab_delimited :
    whitespaceTokens "abc\td3d9.dll".toList = ["abc".toList, "d3d9.dll".toList] ∧
    GetChecksum 200 "abc\td3d9.dll".toList =
      .error "incorrect size of checksum split".toList := by decide

/-- C6 amended: on a successful status, GetChecksum errors exactly when the
body contains no space character (fewer than two fields when split on the
space character), and otherwise returns the field before the first space. -/
theorem getChecksum_splits_on_space_only (body : GoString) :
    ((∃ e, GetChecksum 200 body = .error e) ↔ ' ' ∉ body) ∧
    (' ' ∈ body → GetChecksum 200 body = .ok (body.takeWhile (· != ' '))) := by
  have h299 : ¬ (200 > 299) := by omega
  constructor
  · constructor
    · rintro ⟨e, he⟩ hsp
      have h2 : ¬ (splitOnSpace body).length < 2 :=
        Nat.not_lt.mpr ((two_le_length_splitOnSpace body).mpr hsp)
      simp [GetChecksum, h299, h2] at he
    · intro hnsp
      refine ⟨"incorrect size of checksum split".toList, ?_⟩
      have h2 : (splitOnSpace body).length < 2 :=
        Nat.lt_of_not_le (fun hle => hnsp ((two_le_length_splitOnSpace body).mp hle))
      simp [GetChecksum, h299, h2]
  · intro hsp
    have h2 : ¬ (splitOnSpace body).length < 2 :=
      Nat.not_lt.mpr ((two_le_length_splitOnSpace body).mpr hsp)
    simp only [GetChecksum, if_neg h299, if_neg h2]
    exact congrArg Except.ok (headD_splitOnSpace body)

/-- C6 amended witness: the body "abc d3d9.dll" contains a space and its
checksum is the field before the first space, "abc". -/
theorem getChecksum_space_witness :
    ' ' ∈ "abc d3d9.dll".toList ∧
    GetChecksum 200 "abc d3d9.dll".toList =
      .ok ("abc d3d9.dll".toList.takeWhile (· != ' ')) :=
  ⟨by decide, (getChecksum_splits_on_space_only "abc d3d9.dll".toList).2 (by decide)⟩

/-- C8 counterexample: the informational status 100 is accepted by
SendWebHook although it is not a 2xx status, so success is not exactly the
2xx range. -/
theorem sendWebHook_accepts_non_2xx :
    SendWebHook 100 [] = .ok () ∧ ¬ (200 ≤ 100 ∧ 100 ≤ 299) := by decide

/-- C8 amended: SendWebHook succeeds exactly when the webhook's status is
at most 299 (the code tests statusCode > 299, which also lets informational
1xx statuses through), and every status at least 300 yields the error that
interpolates the response body. -/
theorem sendWebHook_ok_iff_le_299 (statusCode : Nat) (body : GoString) :
    (SendWebHook statusCode body = .ok () ↔ statusCode ≤ 299) ∧
    (300 ≤ statusCode →
      SendWebHook statusCode body =
        .error ("bad response from Discord: ".toList ++ (toString statusCode).toList
          ++ " (".toList ++ body ++ ")".toList)) := by
  by_cases h : statusCode > 299
  · constructor
    · constructor
      · intro he
        simp [SendWebHook, h] at he
      · intro hle
        omega
    · intro _
      simp [SendWebHook, h]
  · constructor
    · constructor
      · intro _
        omega
      · intro _
        simp [SendWebHook, h]
    · intro h3
      omega

/-- C8 amended witness: status 204 succeeds; status 404 yields the error
carrying the response body "missing". -/
theorem sendWebHook_status_witness :
    SendWebHook 204 "x".toList = .ok () ∧
    SendWebHook 404 "missing".toList =
      .error ("bad response from Discord: ".toList ++ (toString 404).toList
        ++ " (".toList ++ "missing".toList ++ ")".toList) :=
  ⟨(sendWebHook_ok_iff_le_299 204 "x".toList).1.mpr (by omega),
   (sendWebHook_ok_iff_le_299 404 "missing".toList).2 (by omega)⟩

/-- C10: there is a checksum response body with two space-delimited fields
whose first field is empty, on which GetChecksum succeeds and returns the
empty checksum. -/
theorem getChecksum_can_return_empty :
    ∃ body : GoString, 2 ≤ (splitOnSpace body).length ∧
      (splitOnSpace body).headD [] = [] ∧ GetChecksum 200 body = .ok [] :=
  ⟨" d3d9.dll".toList, by decide⟩

end ArcMon
